import Mathlib

/-!
Verification development for the grokel-backend repository.

Part 1 embeds `src/grokel_protocol.js`: the RGB→HSV color codec and the
8-byte binary packet codec (constructors and validator).  JavaScript
numbers are modelled as exact rationals (`ℚ`) where the source divides,
and as integers (`ℤ`/`ℕ`) where the source holds integer values; a Node
`Buffer` is modelled as a `List ℕ` of byte values.

Part 2 embeds the session registry and liveness sweeper of
`src/index.js` as a step relation over an explicit server state.
-/

namespace Grokel

/-- Models JavaScript Math.round for the nonnegative arguments that arise
here: round half away from zero, which for x ≥ 0 is ⌊x + 1/2⌋. -/
def jsRound (x : ℚ) : ℤ := (x + 1 / 2).floor

/-- jsRound is the mathematical floor of x + 1/2. -/
theorem jsRound_eq (x : ℚ) : jsRound x = ⌊x + 1 / 2⌋ :=
  (Rat.floor_def' (x + 1 / 2)).trans Rat.floor_def.symm

/-- Evaluation rule for jsRound at a concrete rational. -/
theorem jsRound_concrete {x : ℚ} {n : ℤ} (h1 : (n : ℚ) ≤ x + 1 / 2)
    (h2 : x + 1 / 2 < n + 1) : jsRound x = n := by
  rw [jsRound_eq]
  exact Int.floor_eq_iff.mpr ⟨h1, h2⟩

/-- Command opcode for SET_COLOR (grokel_protocol.js line 25). -/
def GROKEL_CMD_SET_COLOR : ℕ := 0x01

/-- Command opcode for OFFLINE (grokel_protocol.js line 26). -/
def GROKEL_CMD_OFFLINE : ℕ := 0x02

/-- Command opcode for HEARTBEAT (grokel_protocol.js line 27). -/
def GROKEL_CMD_HEARTBEAT : ℕ := 0x03

/-- Packet size in bytes (grokel_protocol.js line 29). -/
def GROKEL_PACKET_SIZE : ℕ := 8

/-- Result record of rgbToHsv: h in 0..360, s in 0..255, v in 0..255.
Components are integers because the source rounds each one. -/
structure HSV where
  h : ℤ
  s : ℤ
  v : ℤ
deriving DecidableEq, Repr

/-- max of the three normalized channels (grokel_protocol.js line 43). -/
def rgbMax (r g b : ℚ) : ℚ := max r (max g b)

/-- min of the three normalized channels (grokel_protocol.js line 44). -/
def rgbMin (r g b : ℚ) : ℚ := min r (min g b)

/-- delta = max - min (grokel_protocol.js line 45). -/
def rgbDelta (r g b : ℚ) : ℚ := rgbMax r g b - rgbMin r g b

/-- Saturation before scaling: 0 if max is 0, else delta/max
(grokel_protocol.js line 48). -/
def hsvSfrac (r g b : ℚ) : ℚ :=
  if rgbMax r g b = 0 then 0 else rgbDelta r g b / rgbMax r g b

/-- Hue before scaling, the 6-way piecewise formula of
grokel_protocol.js lines 47-59; 0 when delta is 0. -/
def hsvHfrac (r g b : ℚ) : ℚ :=
  if rgbDelta r g b ≠ 0 then
    if rgbMax r g b = r then
      ((g - b) / rgbDelta r g b + (if g < b then 6 else 0)) / 6
    else if rgbMax r g b = g then
      ((b - r) / rgbDelta r g b + 2) / 6
    else
      ((r - g) / rgbDelta r g b + 4) / 6
  else 0

/-- RGB to HSV conversion (grokel_protocol.js lines 38-66): channels are
normalized by 255, then h, s, v are computed and rounded to integers
scaled to 0..360 / 0..255 / 0..255. -/
def rgbToHsv (r g b : ℤ) : HSV :=
  { h := jsRound (hsvHfrac ((r : ℚ) / 255) ((g : ℚ) / 255) ((b : ℚ) / 255) * 360)
  , s := jsRound (hsvSfrac ((r : ℚ) / 255) ((g : ℚ) / 255) ((b : ℚ) / 255) * 255)
  , v := jsRound (rgbMax ((r : ℚ) / 255) ((g : ℚ) / 255) ((b : ℚ) / 255) * 255) }

/-- Buffer.alloc: an n-byte buffer of zeros. -/
def bufferAlloc (n : ℕ) : List ℕ := List.replicate n 0

/-- Buffer.writeUInt8 value at offset.  Node validates 0 ≤ value ≤ 255
and throws otherwise; every call in the source is proved in range below,
so the mod 256 taken here for totality is a no-op. -/
def writeUInt8 (p : List ℕ) (v i : ℕ) : List ℕ := p.set i (v % 256)

/-- Buffer.writeUInt16BE value at offset: big-endian high byte then low
byte.  Node validates 0 ≤ value ≤ 65535; every call in the source is
proved in range below. -/
def writeUInt16BE (p : List ℕ) (v i : ℕ) : List ℕ :=
  (p.set i (v / 256 % 256)).set (i + 1) (v % 256)

/-- Buffer.readUInt8 at offset (in-bounds in every use in the source,
which checks the length first). -/
def readUInt8 (p : List ℕ) (i : ℕ) : ℕ := p.getD i 0

/-- Buffer.readUInt16BE at offset: 256 * high byte + low byte. -/
def readUInt16BE (p : List ℕ) (i : ℕ) : ℕ := 256 * p.getD i 0 + p.getD (i + 1) 0

/-- createSetColorPacket (grokel_protocol.js lines 76-110): validates the
RGB and duration ranges, throwing otherwise (modelled as `Except.error`),
then converts to HSV and packs the 8-byte frame. -/
def createSetColorPacket (r g b duration : ℤ) : Except String (List ℕ) :=
  if r < 0 ∨ r > 255 ∨ g < 0 ∨ g > 255 ∨ b < 0 ∨ b > 255 then
    .error "Invalid RGB values"
  else if duration < 0 ∨ duration > 65535 then
    .error "Invalid duration"
  else
    let hsv := rgbToHsv r g b
    let p0 := bufferAlloc GROKEL_PACKET_SIZE
    let p1 := writeUInt8 p0 GROKEL_CMD_SET_COLOR 0
    let p2 := writeUInt16BE p1 hsv.h.toNat 1
    let p3 := writeUInt8 p2 hsv.s.toNat 3
    let p4 := writeUInt8 p3 hsv.v.toNat 4
    let p5 := writeUInt8 p4 0 5
    .ok (writeUInt16BE p5 duration.toNat 6)

/-- createOfflinePacket (grokel_protocol.js lines 116-121): an 8-byte
zero buffer with the OFFLINE opcode written at offset 0. -/
def createOfflinePacket : List ℕ :=
  writeUInt8 (bufferAlloc GROKEL_PACKET_SIZE) GROKEL_CMD_OFFLINE 0

/-- createHeartbeatPacket (grokel_protocol.js lines 127-132): an 8-byte
zero buffer with the HEARTBEAT opcode written at offset 0. -/
def createHeartbeatPacket : List ℕ :=
  writeUInt8 (bufferAlloc GROKEL_PACKET_SIZE) GROKEL_CMD_HEARTBEAT 0

/-- validatePacket (grokel_protocol.js lines 139-166).  The input domain
is Buffers, modelled as byte lists, so the Buffer.isBuffer guard is
absorbed by the type. -/
def validatePacket (p : List ℕ) : Bool :=
  if p.length ≠ GROKEL_PACKET_SIZE then false
  else
    let cmd := readUInt8 p 0
    if cmd ≠ GROKEL_CMD_SET_COLOR ∧ cmd ≠ GROKEL_CMD_OFFLINE ∧
        cmd ≠ GROKEL_CMD_HEARTBEAT then false
    else if cmd = GROKEL_CMD_SET_COLOR then
      if readUInt16BE p 1 > 360 ∨ readUInt8 p 3 > 255 ∨ readUInt8 p 4 > 255 then
        false
      else true
    else true

/-- The frame carried by a successful encode result (empty list on the
error branch, which the theorems below rule out). -/
def okFrame (e : Except String (List ℕ)) : List ℕ :=
  match e with
  | .ok p => p
  | .error _ => []

example : rgbToHsv 255 0 0 = ⟨0, 255, 255⟩ := by
  simp only [rgbToHsv, hsvHfrac, hsvSfrac, rgbDelta, rgbMax, rgbMin, max_def, min_def,
    HSV.mk.injEq]
  norm_num
  repeat' apply And.intro
  all_goals exact jsRound_concrete (by norm_num) (by norm_num)

example : rgbToHsv 0 255 0 = ⟨120, 255, 255⟩ := by
  simp only [rgbToHsv, hsvHfrac, hsvSfrac, rgbDelta, rgbMax, rgbMin, max_def, min_def,
    HSV.mk.injEq]
  norm_num
  repeat' apply And.intro
  all_goals exact jsRound_concrete (by norm_num) (by norm_num)

example : rgbToHsv 0 0 0 = ⟨0, 0, 0⟩ := by
  simp only [rgbToHsv, hsvHfrac, hsvSfrac, rgbDelta, rgbMax, rgbMin, max_def, min_def,
    HSV.mk.injEq]
  norm_num
  repeat' apply And.intro
  all_goals exact jsRound_concrete (by norm_num) (by norm_num)

example : rgbToHsv 30 100 200 = ⟨215, 217, 200⟩ := by
  simp only [rgbToHsv, hsvHfrac, hsvSfrac, rgbDelta, rgbMax, rgbMin, max_def, min_def,
    HSV.mk.injEq]
  norm_num
  repeat' apply And.intro
  all_goals exact jsRound_concrete (by norm_num) (by norm_num)

theorem rgbMin_le_r (r g b : ℚ) : rgbMin r g b ≤ r := min_le_left _ _

theorem rgbMin_le_g (r g b : ℚ) : rgbMin r g b ≤ g :=
  (min_le_right r _).trans (min_le_left g b)

theorem rgbMin_le_b (r g b : ℚ) : rgbMin r g b ≤ b :=
  (min_le_right r _).trans (min_le_right g b)

theorem r_le_rgbMax (r g b : ℚ) : r ≤ rgbMax r g b := le_max_left _ _

theorem g_le_rgbMax (r g b : ℚ) : g ≤ rgbMax r g b :=
  (le_max_left g b).trans (le_max_right r _)

theorem b_le_rgbMax (r g b : ℚ) : b ≤ rgbMax r g b :=
  (le_max_right g b).trans (le_max_right r _)

theorem rgbDelta_nonneg (r g b : ℚ) : 0 ≤ rgbDelta r g b :=
  sub_nonneg.mpr ((rgbMin_le_r r g b).trans (r_le_rgbMax r g b))

theorem jsRound_nonneg {x : ℚ} (hx : 0 ≤ x) : 0 ≤ jsRound x := by
  rw [jsRound_eq]
  exact Int.le_floor.mpr (by push_cast; linarith)

theorem jsRound_le {x : ℚ} {n : ℤ} (hx : x ≤ n) : jsRound x ≤ n := by
  rw [jsRound_eq]
  have h : ⌊x + 1 / 2⌋ < n + 1 := Int.floor_lt.mpr (by push_cast; linarith)
  omega

/-- The piecewise hue fraction always lands in [0, 1], for any real
channel values. -/
theorem hsvHfrac_bounds (r g b : ℚ) : 0 ≤ hsvHfrac r g b ∧ hsvHfrac r g b ≤ 1 := by
  have hminr := rgbMin_le_r r g b
  have hming := rgbMin_le_g r g b
  have hminb := rgbMin_le_b r g b
  have hmaxr := r_le_rgbMax r g b
  have hmaxg := g_le_rgbMax r g b
  have hmaxb := b_le_rgbMax r g b
  unfold hsvHfrac
  by_cases hδ : rgbDelta r g b ≠ 0
  · have hδpos : 0 < rgbDelta r g b :=
      lt_of_le_of_ne (rgbDelta_nonneg r g b) (Ne.symm hδ)
    have hδdef : rgbDelta r g b = rgbMax r g b - rgbMin r g b := rfl
    rw [if_pos hδ]
    by_cases hrm : rgbMax r g b = r
    · rw [if_pos hrm]
      by_cases hgb : g < b
      · rw [if_pos hgb]
        have h1 : -1 ≤ (g - b) / rgbDelta r g b := by
          rw [neg_le, ← neg_div, div_le_one hδpos]
          linarith
        have h2 : (g - b) / rgbDelta r g b ≤ 0 :=
          div_nonpos_iff.mpr (Or.inr ⟨by linarith, hδpos.le⟩)
        constructor <;> linarith
      · rw [if_neg hgb]
        push_neg at hgb
        have h1 : 0 ≤ (g - b) / rgbDelta r g b :=
          div_nonneg (by linarith) hδpos.le
        have h2 : (g - b) / rgbDelta r g b ≤ 1 := by
          rw [div_le_one hδpos]
          linarith
        constructor <;> linarith
    · rw [if_neg hrm]
      have hq : ∀ x y : ℚ, rgbMin r g b ≤ x → x ≤ rgbMax r g b →
          rgbMin r g b ≤ y → y ≤ rgbMax r g b →
          -1 ≤ (y - x) / rgbDelta r g b ∧ (y - x) / rgbDelta r g b ≤ 1 := by
        intro x y hx1 hx2 hy1 hy2
        constructor
        · rw [neg_le, ← neg_div, div_le_one hδpos]
          linarith
        · rw [div_le_one hδpos]
          linarith
      by_cases hgm : rgbMax r g b = g
      · rw [if_pos hgm]
        obtain ⟨h1, h2⟩ := hq r b hminr hmaxr hminb hmaxb
        constructor <;> linarith
      · rw [if_neg hgm]
        obtain ⟨h1, h2⟩ := hq g r hming hmaxg hminr hmaxr
        constructor <;> linarith
  · rw [if_neg hδ]
    norm_num

/-- The saturation fraction lands in [0, 1] for nonnegative channels. -/
theorem hsvSfrac_bounds (r g b : ℚ) (hr : 0 ≤ r) (hg : 0 ≤ g) (hb : 0 ≤ b) :
    0 ≤ hsvSfrac r g b ∧ hsvSfrac r g b ≤ 1 := by
  unfold hsvSfrac
  by_cases hm : rgbMax r g b = 0
  · rw [if_pos hm]
    norm_num
  · rw [if_neg hm]
    have hmax0 : 0 ≤ rgbMax r g b := hr.trans (r_le_rgbMax r g b)
    have hmaxpos : 0 < rgbMax r g b := lt_of_le_of_ne hmax0 (Ne.symm hm)
    have hmin0 : 0 ≤ rgbMin r g b := le_min hr (le_min hg hb)
    have hδdef : rgbDelta r g b = rgbMax r g b - rgbMin r g b := rfl
    constructor
    · exact div_nonneg (rgbDelta_nonneg r g b) hmaxpos.le
    · rw [div_le_one hmaxpos]
      linarith

/-- Normalized channel is in [0, 1] when the integer channel is in
[0, 255]. -/
theorem normChannel_mem {x : ℤ} (h0 : 0 ≤ x) (h1 : x ≤ 255) :
    0 ≤ (x : ℚ) / 255 ∧ (x : ℚ) / 255 ≤ 1 := by
  constructor
  · apply div_nonneg _ (by norm_num)
    exact_mod_cast h0
  · rw [div_le_one (by norm_num)]
    exact_mod_cast h1

/-- Range contract for rgbToHsv: h in [0, 360], s in [0, 255],
v in [0, 255] for integer channels in [0, 255]. -/
theorem rgbToHsv_bounds (r g b : ℤ)
    (hr0 : 0 ≤ r) (hr1 : r ≤ 255) (hg0 : 0 ≤ g) (hg1 : g ≤ 255)
    (hb0 : 0 ≤ b) (hb1 : b ≤ 255) :
    0 ≤ (rgbToHsv r g b).h ∧ (rgbToHsv r g b).h ≤ 360 ∧
    0 ≤ (rgbToHsv r g b).s ∧ (rgbToHsv r g b).s ≤ 255 ∧
    0 ≤ (rgbToHsv r g b).v ∧ (rgbToHsv r g b).v ≤ 255 := by
  obtain ⟨hrn0, hrn1⟩ := normChannel_mem hr0 hr1
  obtain ⟨hgn0, hgn1⟩ := normChannel_mem hg0 hg1
  obtain ⟨hbn0, hbn1⟩ := normChannel_mem hb0 hb1
  obtain ⟨hh0, hh1⟩ := hsvHfrac_bounds ((r : ℚ) / 255) ((g : ℚ) / 255) ((b : ℚ) / 255)
  obtain ⟨hs0, hs1⟩ := hsvSfrac_bounds ((r : ℚ) / 255) ((g : ℚ) / 255) ((b : ℚ) / 255)
    hrn0 hgn0 hbn0
  have hv0 : 0 ≤ rgbMax ((r : ℚ) / 255) ((g : ℚ) / 255) ((b : ℚ) / 255) :=
    hrn0.trans (r_le_rgbMax _ _ _)
  have hv1 : rgbMax ((r : ℚ) / 255) ((g : ℚ) / 255) ((b : ℚ) / 255) ≤ 1 :=
    max_le hrn1 (max_le hgn1 hbn1)
  unfold rgbToHsv
  refine ⟨?_, ?_, ?_, ?_, ?_, ?_⟩
  · exact jsRound_nonneg (by nlinarith)
  · exact jsRound_le (by push_cast; nlinarith)
  · exact jsRound_nonneg (by nlinarith)
  · exact jsRound_le (by push_cast; nlinarith)
  · exact jsRound_nonneg (by nlinarith)
  · exact jsRound_le (by push_cast; nlinarith)

/-- The hue fraction is 0 on equal channels (delta = 0). -/
theorem hsvHfrac_self (x : ℚ) : hsvHfrac x x x = 0 := by
  simp [hsvHfrac, rgbDelta, rgbMax, rgbMin]

theorem jsRound_zero : jsRound 0 = 0 :=
  jsRound_concrete (by norm_num) (by norm_num)

/-- rgbToHsv on black. -/
theorem rgbToHsv_zero : rgbToHsv 0 0 0 = ⟨0, 0, 0⟩ := by
  simp only [rgbToHsv, hsvHfrac, hsvSfrac, rgbDelta, rgbMax, rgbMin, max_def, min_def,
    HSV.mk.injEq]
  norm_num
  exact jsRound_zero

/-- The shape of a successful createSetColorPacket result: the 8 bytes
actually written. -/
theorem createSetColorPacket_ok (r g b d : ℤ)
    (h1 : ¬(r < 0 ∨ r > 255 ∨ g < 0 ∨ g > 255 ∨ b < 0 ∨ b > 255))
    (h2 : ¬(d < 0 ∨ d > 65535)) :
    createSetColorPacket r g b d = .ok
      [GROKEL_CMD_SET_COLOR,
       (rgbToHsv r g b).h.toNat / 256 % 256, (rgbToHsv r g b).h.toNat % 256,
       (rgbToHsv r g b).s.toNat % 256,
       (rgbToHsv r g b).v.toNat % 256,
       0,
       d.toNat / 256 % 256, d.toNat % 256] := by
  unfold createSetColorPacket
  rw [if_neg h1, if_neg h2]
  rfl

/-- Claim C6: for integer r, g, b each in [0,255], rgbToHsv satisfies
0 ≤ h ≤ 360, 0 ≤ s ≤ 255, 0 ≤ v ≤ 255 (all components are integers by
the type of HSV); s = 0 whenever max(r,g,b) = 0, and h = 0 whenever
r = g = b. -/
theorem rgbToHsv_contract (r g b : ℤ)
    (hr0 : 0 ≤ r) (hr1 : r ≤ 255) (hg0 : 0 ≤ g) (hg1 : g ≤ 255)
    (hb0 : 0 ≤ b) (hb1 : b ≤ 255) :
    (0 ≤ (rgbToHsv r g b).h ∧ (rgbToHsv r g b).h ≤ 360) ∧
    (0 ≤ (rgbToHsv r g b).s ∧ (rgbToHsv r g b).s ≤ 255) ∧
    (0 ≤ (rgbToHsv r g b).v ∧ (rgbToHsv r g b).v ≤ 255) ∧
    (max r (max g b) = 0 → (rgbToHsv r g b).s = 0) ∧
    (r = g ∧ g = b → (rgbToHsv r g b).h = 0) := by
  obtain ⟨h1, h2, h3, h4, h5, h6⟩ := rgbToHsv_bounds r g b hr0 hr1 hg0 hg1 hb0 hb1
  refine ⟨⟨h1, h2⟩, ⟨h3, h4⟩, ⟨h5, h6⟩, ?_, ?_⟩
  · intro hmax
    have hrm : r ≤ max r (max g b) := le_max_left _ _
    have hgm : g ≤ max r (max g b) := (le_max_left g b).trans (le_max_right r _)
    have hbm : b ≤ max r (max g b) := (le_max_right g b).trans (le_max_right r _)
    have hr : r = 0 := le_antisymm (hmax ▸ hrm) hr0
    have hg : g = 0 := le_antisymm (hmax ▸ hgm) hg0
    have hb : b = 0 := le_antisymm (hmax ▸ hbm) hb0
    subst hr hg hb
    rw [rgbToHsv_zero]
  · rintro ⟨rfl, rfl⟩
    show jsRound (hsvHfrac ((r : ℚ) / 255) ((r : ℚ) / 255) ((r : ℚ) / 255) * 360) = 0
    rw [hsvHfrac_self, zero_mul, jsRound_zero]

/-- Claim C6 witness at (10, 20, 30). -/
theorem rgbToHsv_contract_witness : 0 ≤ (rgbToHsv 10 20 30).h ∧ (rgbToHsv 10 20 30).h ≤ 360 :=
  (rgbToHsv_contract 10 20 30 (by decide) (by decide) (by decide) (by decide)
    (by decide) (by decide)).1

/-- Claim C4: createSetColorPacket raises an error exactly when some
argument is out of range (r, g, b outside [0,255] or duration outside
[0,65535]); in every other case it returns an 8-byte frame and no frame
is produced on the error path. -/
theorem createSetColorPacket_isError (r g b d : ℤ)
    (h : r < 0 ∨ r > 255 ∨ g < 0 ∨ g > 255 ∨ b < 0 ∨ b > 255 ∨ d < 0 ∨ d > 65535) :
    ∃ e, createSetColorPacket r g b d = .error e := by
  by_cases hA : r < 0 ∨ r > 255 ∨ g < 0 ∨ g > 255 ∨ b < 0 ∨ b > 255
  · exact ⟨"Invalid RGB values", by unfold createSetColorPacket; rw [if_pos hA]⟩
  · have hB : d < 0 ∨ d > 65535 := by tauto
    exact ⟨"Invalid duration", by
      unfold createSetColorPacket
      rw [if_neg hA, if_pos hB]⟩

theorem createSetColorPacket_error_iff (r g b d : ℤ) :
    ((∃ e, createSetColorPacket r g b d = .error e) ↔
      (r < 0 ∨ r > 255 ∨ g < 0 ∨ g > 255 ∨ b < 0 ∨ b > 255 ∨ d < 0 ∨ d > 65535)) ∧
    ((∃ p, createSetColorPacket r g b d = .ok p ∧ p.length = 8) ↔
      ¬(r < 0 ∨ r > 255 ∨ g < 0 ∨ g > 255 ∨ b < 0 ∨ b > 255 ∨ d < 0 ∨ d > 65535)) := by
  constructor
  · constructor
    · rintro ⟨e, he⟩
      by_contra hn
      have hok := createSetColorPacket_ok r g b d (by tauto) (by tauto)
      rw [hok] at he
      exact absurd he (by simp)
    · exact createSetColorPacket_isError r g b d
  · constructor
    · rintro ⟨p, hp, _⟩ hbig
      obtain ⟨e, he⟩ := createSetColorPacket_isError r g b d hbig
      rw [hp] at he
      exact absurd he (by simp)
    · intro hn
      have hok := createSetColorPacket_ok r g b d (by tauto) (by tauto)
      exact ⟨_, hok, rfl⟩

/-- Claim C2: for in-range integer inputs the 8-byte frame returned by
createSetColorPacket decodes exactly back to rgbToHsv(r,g,b): the
big-endian uint16 at offset 1 is h, byte 3 is s, byte 4 is v, byte 5 is
0, the big-endian uint16 at offsets 6-7 is durationMs, and byte 0 is
0x01. -/
theorem frame_hsv_roundtrip (r g b d : ℤ)
    (hr0 : 0 ≤ r) (hr1 : r ≤ 255) (hg0 : 0 ≤ g) (hg1 : g ≤ 255)
    (hb0 : 0 ≤ b) (hb1 : b ≤ 255) (hd0 : 0 ≤ d) (hd1 : d ≤ 65535) :
    createSetColorPacket r g b d = .ok (okFrame (createSetColorPacket r g b d)) ∧
    (okFrame (createSetColorPacket r g b d)).length = 8 ∧
    readUInt8 (okFrame (createSetColorPacket r g b d)) 0 = GROKEL_CMD_SET_COLOR ∧
    (readUInt16BE (okFrame (createSetColorPacket r g b d)) 1 : ℤ) = (rgbToHsv r g b).h ∧
    (readUInt8 (okFrame (createSetColorPacket r g b d)) 3 : ℤ) = (rgbToHsv r g b).s ∧
    (readUInt8 (okFrame (createSetColorPacket r g b d)) 4 : ℤ) = (rgbToHsv r g b).v ∧
    readUInt8 (okFrame (createSetColorPacket r g b d)) 5 = 0 ∧
    (readUInt16BE (okFrame (createSetColorPacket r g b d)) 6 : ℤ) = d := by
  obtain ⟨hh0, hh1, hs0, hs1, hv0, hv1⟩ :=
    rgbToHsv_bounds r g b hr0 hr1 hg0 hg1 hb0 hb1
  have hok := createSetColorPacket_ok r g b d (by omega) (by omega)
  rw [hok]
  refine ⟨rfl, rfl, rfl, ?_, ?_, ?_, rfl, ?_⟩
  · show ((256 * ((rgbToHsv r g b).h.toNat / 256 % 256) +
      (rgbToHsv r g b).h.toNat % 256 : ℕ) : ℤ) = (rgbToHsv r g b).h
    omega
  · show (((rgbToHsv r g b).s.toNat % 256 : ℕ) : ℤ) = (rgbToHsv r g b).s
    omega
  · show (((rgbToHsv r g b).v.toNat % 256 : ℕ) : ℤ) = (rgbToHsv r g b).v
    omega
  · show ((256 * (d.toNat / 256 % 256) + d.toNat % 256 : ℕ) : ℤ) = d
    omega

/-- Claim C2 witness at (10, 20, 30, 400). -/
theorem frame_hsv_roundtrip_witness :
    createSetColorPacket 10 20 30 400 = .ok (okFrame (createSetColorPacket 10 20 30 400)) :=
  (frame_hsv_roundtrip 10 20 30 400 (by decide) (by decide) (by decide) (by decide)
    (by decide) (by decide) (by decide) (by decide)).1

/-- Claim C5: validatePacket accepts exactly the 8-byte frames whose
opcode is one of 0x01, 0x02, 0x03 and which, for opcode 0x01, carry a
decoded hue ≤ 360, saturation ≤ 255 and value ≤ 255. -/
theorem validatePacket_spec (p : List ℕ) :
    validatePacket p = true ↔
      (p.length = 8 ∧
       (readUInt8 p 0 = GROKEL_CMD_SET_COLOR ∨ readUInt8 p 0 = GROKEL_CMD_OFFLINE ∨
        readUInt8 p 0 = GROKEL_CMD_HEARTBEAT) ∧
       (readUInt8 p 0 = GROKEL_CMD_SET_COLOR →
         readUInt16BE p 1 ≤ 360 ∧ readUInt8 p 3 ≤ 255 ∧ readUInt8 p 4 ≤ 255)) := by
  unfold validatePacket GROKEL_PACKET_SIZE GROKEL_CMD_SET_COLOR GROKEL_CMD_OFFLINE
    GROKEL_CMD_HEARTBEAT
  split_ifs with h1 h2 h3 h4 <;> simp_all <;> omega

/-- Claim C7: createOfflinePacket and createHeartbeatPacket each return
an 8-byte frame whose byte 0 is 0x02 / 0x03 respectively and whose bytes
1 through 7 are all zero. -/
theorem offline_heartbeat_frames :
    createOfflinePacket = [GROKEL_CMD_OFFLINE, 0, 0, 0, 0, 0, 0, 0] ∧
    createHeartbeatPacket = [GROKEL_CMD_HEARTBEAT, 0, 0, 0, 0, 0, 0, 0] ∧
    createOfflinePacket.length = 8 ∧ createHeartbeatPacket.length = 8 := by
  decide

/-- Claim C10: every frame the codec emits passes its own validator:
offline, heartbeat, and any set-color frame built from in-range
arguments. -/
theorem constructors_validate (r g b d : ℤ)
    (hr0 : 0 ≤ r) (hr1 : r ≤ 255) (hg0 : 0 ≤ g) (hg1 : g ≤ 255)
    (hb0 : 0 ≤ b) (hb1 : b ≤ 255) (hd0 : 0 ≤ d) (hd1 : d ≤ 65535) :
    validatePacket createOfflinePacket = true ∧
    validatePacket createHeartbeatPacket = true ∧
    validatePacket (okFrame (createSetColorPacket r g b d)) = true := by
  refine ⟨by decide, by decide, ?_⟩
  obtain ⟨hh0, hh1, hs0, hs1, hv0, hv1⟩ :=
    rgbToHsv_bounds r g b hr0 hr1 hg0 hg1 hb0 hb1
  have hok := createSetColorPacket_ok r g b d (by omega) (by omega)
  rw [hok, validatePacket_spec]
  refine ⟨rfl, Or.inl rfl, fun _ => ⟨?_, ?_, ?_⟩⟩
  · show 256 * ((rgbToHsv r g b).h.toNat / 256 % 256) +
      (rgbToHsv r g b).h.toNat % 256 ≤ 360
    omega
  · show (rgbToHsv r g b).s.toNat % 256 ≤ 255
    omega
  · show (rgbToHsv r g b).v.toNat % 256 ≤ 255
    omega

/-- Claim C10 witness at (10, 20, 30, 400). -/
theorem constructors_validate_witness : validatePacket createOfflinePacket = true :=
  (constructors_validate 10 20 30 400 (by decide) (by decide) (by decide) (by decide)
    (by decide) (by decide) (by decide) (by decide)).1

example : createOfflinePacket = [2, 0, 0, 0, 0, 0, 0, 0] := by decide
example : validatePacket createOfflinePacket = true := by decide
example : validatePacket [1, 2, 0, 0, 0, 0, 0, 0] = false := by decide

/-!
Part 2: the session registry, per-device store listeners and liveness
sweeper of `src/index.js`, as a step relation over an explicit server
state.  Transports (WebSocket objects) are identified by numeric ids;
the event-loop handlers — the connection handler (lines 43-99), the
close handler (lines 85-93), the pong handler (lines 96-98) and one
sweeper tick (lines 102-108) — are each one atomic step.
-/

/-- One accepted (registered) connection: its transport id, the deviceId
captured by its closures, whether the transport is still open (member of
wss.clients), its isAlive flag, and whether its close handler has
already run. -/
structure Conn where
  tid : ℕ
  deviceId : String
  openFlag : Bool
  alive : Bool
  closeFired : Bool
deriving DecidableEq, Repr

/-- JS Map lookup (Map.prototype.get). -/
def mapGet : List (String × ℕ) → String → Option ℕ
  | [], _ => none
  | (k, v) :: rest, key => if k = key then some v else mapGet rest key

/-- JS Map insert-or-replace (Map.prototype.set). -/
def mapSet : List (String × ℕ) → String → ℕ → List (String × ℕ)
  | [], key, val => [(key, val)]
  | (k, v) :: rest, key, val =>
    if k = key then (key, val) :: rest else (k, v) :: mapSet rest key val

/-- JS Map removal (Map.prototype.delete). -/
def mapDelete : List (String × ℕ) → String → List (String × ℕ)
  | [], _ => []
  | (k, v) :: rest, key => if k = key then rest else (k, v) :: mapDelete rest key

/-- Removes the first occurrence of one specific attached callback:
Firebase ref.off('value', callback) unregisters exactly the callback it
is handed. -/
def eraseSub : List (String × ℕ) → String × ℕ → List (String × ℕ)
  | [], _ => []
  | q :: rest, sub => if q = sub then rest else q :: eraseSub rest sub

/-- Server state of index.js: the two Maps declared at lines 19-20, the
set of callbacks actually registered at the store (a `stateRef.on`
registration is keyed by device path and by the connection whose closure
it captures), the registered connections, and which transports have
received a forwarded store message. -/
structure SState where
  devices : List (String × ℕ)
  deviceListeners : List (String × ℕ)
  storeSubs : List (String × ℕ)
  conns : List Conn
  delivered : List ℕ
deriving DecidableEq, Repr

/-- The initial state: no devices, no listeners. -/
def sInit : SState := ⟨[], [], [], [], []⟩

/-- The connection handler's rejection guard (index.js lines 46-50):
`!deviceId` is true when the id query parameter is missing (null) or the
empty string; the handler then closes the transport and returns without
touching any state. -/
def rejectsConnection (qid : Option String) : Bool :=
  match qid with
  | none => true
  | some id => id = ""

/-- The connection handler (index.js lines 43-99) as one step: reject on
a missing/empty id; otherwise register the transport in `devices`, mark
it alive, attach a store listener for the device path, and record the
listener handle in `deviceListeners` (overwriting any previous handle
for the same id without detaching it). -/
def connectStep (s : SState) (qid : Option String) (t : ℕ) : SState :=
  match qid with
  | none => s
  | some id =>
    if id = "" then s
    else
      { devices := mapSet s.devices id t,
        deviceListeners := mapSet s.deviceListeners id t,
        storeSubs := s.storeSubs ++ [(id, t)],
        conns := s.conns ++ [⟨t, id, true, true, false⟩],
        delivered := s.delivered }

/-- Looks up a registered connection by transport id. -/
def findConn : List Conn → ℕ → Option Conn
  | [], _ => none
  | c :: rest, t => if c.tid = t then some c else findConn rest t

/-- The close handler of transport t (index.js lines 85-93) as one step:
when it fires, it reads the CURRENT `deviceListeners` entry for its
closure's deviceId, detaches that callback from the store, deletes the
`deviceListeners` and `devices` entries for that id, and marks the
connection closed. -/
def closeEvtStep (s : SState) (t : ℕ) : SState :=
  match findConn s.conns t with
  | none => s
  | some c =>
    if c.closeFired then s
    else
      let s1 :=
        match mapGet s.deviceListeners c.deviceId with
        | some h =>
          { s with
              storeSubs := eraseSub s.storeSubs (c.deviceId, h),
              deviceListeners := mapDelete s.deviceListeners c.deviceId }
        | none => s
      { s1 with
          devices := mapDelete s1.devices c.deviceId,
          conns := s1.conns.map fun c' =>
            if c'.tid = t then { c' with openFlag := false, closeFired := true } else c' }

/-- The pong handler (index.js lines 96-98): marks the transport alive. -/
def pongStep (s : SState) (t : ℕ) : SState :=
  { s with conns := s.conns.map fun c =>
      if c.tid = t then { c with alive := true } else c }

/-- One sweeper visit to one client (body of the forEach at index.js
lines 103-107): a client whose isAlive flag is false is terminated;
otherwise its flag is cleared and it is pinged. -/
def sweepConn (c : Conn) : Conn :=
  if c.openFlag then
    if c.alive = false then { c with openFlag := false }
    else { c with alive := false }
  else c

/-- One sweeper tick (index.js lines 102-108): visits every currently
open client.  Termination destroys the socket; the terminated client's
close handler fires as a later `closeEvtStep`. -/
def sweepStep (s : SState) : SState :=
  { s with conns := s.conns.map sweepConn }

/-- A value-changed notification from the store for device id: every
callback registered for that path fires; each captured transport whose
readyState is OPEN is sent the forwarded message (index.js lines 71-79). -/
def storeEventStep (s : SState) (id : String) : SState :=
  { s with delivered := s.delivered ++
      ((s.storeSubs.filter fun sub => sub.1 = id).filterMap fun sub =>
        match findConn s.conns sub.2 with
        | some c => if c.openFlag then some sub.2 else none
        | none => none) }

/-- The states reachable by the event loop: any interleaving of
connections (with fresh transport ids), close events (each transport's
close handler fires at most once), pong acknowledgments on open
transports, sweeper ticks and store notifications. -/
inductive Reachable : SState → Prop where
  | init : Reachable sInit
  | connect (s : SState) (qid : Option String) (t : ℕ) (h : Reachable s)
      (hfresh : ∀ c ∈ s.conns, c.tid ≠ t) : Reachable (connectStep s qid t)
  | closeEvt (s : SState) (t : ℕ) (h : Reachable s) : Reachable (closeEvtStep s t)
  | pong (s : SState) (t : ℕ) (h : Reachable s)
      (hopen : ∃ c ∈ s.conns, c.tid = t ∧ c.openFlag = true) :
      Reachable (pongStep s t)
  | sweep (s : SState) (h : Reachable s) : Reachable (sweepStep s)
  | storeEvent (s : SState) (id : String) (h : Reachable s) :
      Reachable (storeEventStep s id)

/-- The reconnect trace: device D1 connects on transport 1, reconnects
on transport 2. -/
def reconnectState : SState :=
  connectStep (connectStep sInit (some "D1") 1) (some "D1") 2

/-- The reconnect trace continued: transport 1's close event then fires. -/
def staleCloseState : SState := closeEvtStep reconnectState 1

/-- Claim C1 (refuted — code bug in the reconnect path): after
connect(D1, t1) followed by connect(D1, t2), lookup does return t2, but
t1's store subscription was never detached (the deviceListeners entry
was overwritten, losing t1's handle), so a store value-changed event is
still delivered to t1; and when t1's close event fires after t2 is
registered, the close handler detaches t2's listener and deletes the
registry entry, leaving lookup(D1) absent while t2 is open and t1's
callback still attached. -/
theorem reconnect_stale_listener_bug :
    mapGet reconnectState.devices "D1" = some 2 ∧
    ("D1", 1) ∈ reconnectState.storeSubs ∧
    1 ∈ (storeEventStep reconnectState "D1").delivered ∧
    mapGet staleCloseState.devices "D1" = none ∧
    mapGet staleCloseState.deviceListeners "D1" = none ∧
    ("D1", 1) ∈ staleCloseState.storeSubs ∧
    ("D1", 2) ∉ staleCloseState.storeSubs ∧
    findConn staleCloseState.conns 2 = some ⟨2, "D1", true, true, false⟩ := by
  decide

/-- Claim C3 (refuted — code bug): a reachable state violates the
claimed invariant: after the stale close event of the reconnect trace,
transport 2 is open and was registered for D1 yet D1 has no registry
entry, and a store callback for D1 remains attached with neither a
registry entry nor a deviceListeners entry. -/
theorem registry_invariant_violated :
    Reachable staleCloseState ∧
    (∃ c ∈ staleCloseState.conns, c.openFlag = true ∧
      mapGet staleCloseState.devices c.deviceId = none) ∧
    (∃ sub ∈ staleCloseState.storeSubs,
      mapGet staleCloseState.devices sub.1 = none ∧
      mapGet staleCloseState.deviceListeners sub.1 = none) := by
  refine ⟨?_, by decide, by decide⟩
  have h0 : Reachable sInit := Reachable.init
  have h1 : Reachable (connectStep sInit (some "D1") 1) :=
    Reachable.connect _ _ _ h0 (by decide)
  have h2 : Reachable reconnectState :=
    Reachable.connect _ _ _ h1 (by decide)
  exact Reachable.closeEvt _ _ h2

/-- The never-acknowledging trace: D1 connects on transport 1, then two
sweep ticks pass with no pong. -/
def neverPongTick1 : SState := sweepStep (connectStep sInit (some "D1") 1)

/-- Second sweep tick of the never-acknowledging trace. -/
def neverPongTick2 : SState := sweepStep neverPongTick1

/-- Close event resulting from the sweeper's terminate call. -/
def neverPongEvicted : SState := closeEvtStep neverPongTick2 1

/-- Claim C8: over each session's liveness flag, an open, alive session
survives the first sweep tick that probes it (the tick only clears its
flag), is terminated on the next tick if it never pongs, and a tick
terminates a client exactly when it finds the flag already false; in the
whole-state model a device that connects and never acknowledges is still
open after one tick, terminated after two, and the resulting close event
detaches its subscription and registry entry. -/
theorem sweeper_two_tick (c : Conn) (hopen : c.openFlag = true)
    (halive : c.alive = true) :
    (sweepConn c).openFlag = true ∧ (sweepConn c).alive = false ∧
    (sweepConn (sweepConn c)).openFlag = false ∧
    (∀ c' : Conn, c'.openFlag = true →
      ((sweepConn c').openFlag = false ↔ c'.alive = false)) ∧
    findConn neverPongTick1.conns 1 = some ⟨1, "D1", true, false, false⟩ ∧
    findConn neverPongTick2.conns 1 = some ⟨1, "D1", false, false, false⟩ ∧
    neverPongEvicted.storeSubs = [] ∧ neverPongEvicted.devices = [] ∧
    neverPongEvicted.deviceListeners = [] := by
  refine ⟨?_, ?_, ?_, ?_, by decide, by decide, by decide, by decide, by decide⟩
  · simp [sweepConn, hopen, halive]
  · simp [sweepConn, hopen, halive]
  · simp [sweepConn, hopen, halive]
  · intro c' hc'
    by_cases ha : c'.alive = true
    · simp [sweepConn, hc', ha]
    · simp only [Bool.not_eq_true] at ha
      simp [sweepConn, hc', ha]

/-- Claim C8 witness at a concrete just-connected session. -/
theorem sweeper_two_tick_witness :
    (sweepConn ⟨1, "D1", true, true, false⟩).openFlag = true :=
  (sweeper_two_tick ⟨1, "D1", true, true, false⟩ rfl rfl).1

/-- Claim C9: a connection whose request carries no non-empty id query
parameter is rejected by the guard (the transport is closed) and the
server state — registry, listener map, store subscriptions — is left
unchanged. -/
theorem empty_id_rejected (s : SState) (t : ℕ) (qid : Option String)
    (h : qid = none ∨ qid = some "") :
    rejectsConnection qid = true ∧ connectStep s qid t = s := by
  rcases h with h | h <;> subst h <;> exact ⟨rfl, rfl⟩

/-- Claim C9 witness: a connection with a missing id. -/
theorem empty_id_rejected_witness :
    rejectsConnection none = true ∧ connectStep sInit none 5 = sInit :=
  empty_id_rejected sInit 5 none (Or.inl rfl)

end Grokel
